import Mathlib

/-!
Verification of the scene-collection core of
`source/blender/blenkernel/intern/collection.c`.

The C data structures are shallowly embedded: intrusive doubly-linked lists
become Lean `List`s, pointers to `SceneCollection` / `Object` / `Group` nodes
become natural-number identifiers (pointer identity becomes identifier
equality), and calls into external collaborators (reference counting, the
layer subsystem) become entries of an explicit effect trace.  Stateful C
functions become pure functions returning the updated state together with the
trace of external calls they performed.
-/

/-- Collection type constant `COLLECTION_TYPE_NONE` (DNA_layer_types.h). -/
def COLLECTION_TYPE_NONE : Nat := 0

/-- Collection type constant `COLLECTION_TYPE_GROUP` (DNA_layer_types.h). -/
def COLLECTION_TYPE_GROUP : Nat := 1

/-- Collection type constant `COLLECTION_TYPE_GROUP_INTERNAL` (DNA_layer_types.h). -/
def COLLECTION_TYPE_GROUP_INTERNAL : Nat := 2

/-- The kind of owning ID, i.e. the result of `GS(id->name)` on the owner:
a Scene (`ID_SCE`) or a Group (`ID_GR`). -/
inductive IDKind where
  | scene
  | group
deriving DecidableEq, Repr

/-- A `SceneCollection` node (DNA): identifier (standing for the node's
address), name, collection type, optional attached group (by group id),
direct member objects, filter objects, and the ordered child collections. -/
inductive SceneCollection where
  | node (scid : Nat) (cname : String) (ctype : Nat) (cgroup : Option Nat)
      (objects : List Nat) (filter_objects : List Nat)
      (scene_collections : List SceneCollection)

/-- Identifier of a collection node (models its address). -/
def SceneCollection.scid : SceneCollection → Nat
  | .node i _ _ _ _ _ _ => i

/-- Name of a collection node. -/
def SceneCollection.cname : SceneCollection → String
  | .node _ n _ _ _ _ _ => n

/-- Type of a collection node. -/
def SceneCollection.ctype : SceneCollection → Nat
  | .node _ _ ty _ _ _ _ => ty

/-- Attached group of a collection node (some group id, when type is group). -/
def SceneCollection.cgroup : SceneCollection → Option Nat
  | .node _ _ _ g _ _ _ => g

/-- Direct member objects of a collection node. -/
def SceneCollection.objects : SceneCollection → List Nat
  | .node _ _ _ _ obs _ _ => obs

/-- Filter objects of a collection node. -/
def SceneCollection.filter_objects : SceneCollection → List Nat
  | .node _ _ _ _ _ fo _ => fo

/-- Direct child collections of a collection node. -/
def SceneCollection.children : SceneCollection → List SceneCollection
  | .node _ _ _ _ _ _ cs => cs

/-- A `LayerCollection` node: the referenced `SceneCollection` (by id), the
flag, the evaluated flag, and the nested layer collections. -/
inductive LayerCollection where
  | node (scene_collection : Nat) (flag : Nat) (flag_evaluated : Nat)
      (layer_collections : List LayerCollection)

/-- Referenced scene collection of a layer collection node. -/
def LayerCollection.scene_collection : LayerCollection → Nat
  | .node sc _ _ _ => sc

/-- Flag of a layer collection node. -/
def LayerCollection.flag : LayerCollection → Nat
  | .node _ fl _ _ => fl

/-- Evaluated flag of a layer collection node. -/
def LayerCollection.flag_evaluated : LayerCollection → Nat
  | .node _ _ fe _ => fe

/-- Nested layer collections of a layer collection node. -/
def LayerCollection.layer_collections : LayerCollection → List LayerCollection
  | .node _ _ _ cls => cls

/-- A `SceneLayer` (render layer): its layer-collection tree and the
active-collection index. -/
structure SceneLayer where
  layer_collections : List LayerCollection
  active_collection : Nat

/-- A `Scene`: its master collection and its render layers. -/
structure Scene where
  collection : SceneCollection
  render_layers : List SceneLayer

/-- A `Group` (named `BGroup` here, since Mathlib takes the name `Group`): an
independently owned entity with its own master collection and one scene layer
(modelled by that layer's layer-collection list). -/
structure BGroup where
  gid : Nat
  gname : String
  collection : SceneCollection
  layer_collections : List LayerCollection

/-- One call into an external collaborator (reference counting, the layer
subsystem, rigid body, ...), recorded in order of occurrence. -/
inductive Effect where
  | idUsPlus (ob : Nat)
  | idUsMin (ob : Nat)
  | libblockFreeUs (ob : Nat)
  | layerSyncNewSceneCollection (parent : Nat) (sc : Nat)
  | layerSyncObjectLink (sc : Nat) (ob : Nat)
  | layerSyncObjectUnlink (sc : Nat) (ob : Nat)
  | layerCollectionResync (sc : Nat)
  | layerCollectionFree (sc : Nat)
  | layerCollectionConvert (sc : Nat) (ctype : Nat)
deriving DecidableEq, Repr

/-! ### Tree search and surgery primitives

These model raw-pointer access into the collection tree: a node identifier is
dereferenced or mutated at its first occurrence in depth-first order (under
the intended invariant that identifiers are unique, this is exactly pointer
access). -/

mutual

/-- Dereference the node with identifier `i` in the tree rooted at `t`
(first depth-first occurrence, the root included). -/
def lookupNode (i : Nat) : SceneCollection → Option SceneCollection
  | .node j n ty g obs fo cs =>
    if j = i then some (.node j n ty g obs fo cs) else lookupForest i cs

/-- Dereference the node with identifier `i` in a forest. -/
def lookupForest (i : Nat) : List SceneCollection → Option SceneCollection
  | [] => none
  | c :: rest =>
    match lookupNode i c with
    | some r => some r
    | none => lookupForest i rest

end

mutual

/-- Apply `f` to the node with identifier `i` (first depth-first occurrence,
the root included); the flag reports whether the node was found. -/
def updateNode (i : Nat) (f : SceneCollection → SceneCollection) :
    SceneCollection → Bool × SceneCollection
  | .node j n ty g obs fo cs =>
    if j = i then (true, f (.node j n ty g obs fo cs))
    else
      let r := updateForest i f cs
      (r.1, .node j n ty g obs fo r.2)

/-- Apply `f` to the node with identifier `i` in a forest. -/
def updateForest (i : Nat) (f : SceneCollection → SceneCollection) :
    List SceneCollection → Bool × List SceneCollection
  | [] => (false, [])
  | c :: rest =>
    let rc := updateNode i f c
    if rc.1 then (true, rc.2 :: rest)
    else
      let rr := updateForest i f rest
      (rr.1, c :: rr.2)

end

mutual

/-- All nodes of a tree in depth-first pre-order (the order of
`scene_collection_callback`). -/
def dfsList : SceneCollection → List SceneCollection
  | .node i n ty g obs fo cs => .node i n ty g obs fo cs :: dfsForest cs

/-- All nodes of a forest in depth-first pre-order. -/
def dfsForest : List SceneCollection → List SceneCollection
  | [] => []
  | c :: rest => dfsList c ++ dfsForest rest

end

mutual

/-- Total number of collection nodes in a tree. -/
def countNodes : SceneCollection → Nat
  | .node _ _ _ _ _ _ cs => 1 + countForest cs

/-- Total number of collection nodes in a forest. -/
def countForest : List SceneCollection → Nat
  | [] => 0
  | c :: rest => countNodes c + countForest rest

end

/-! ### Source helpers: parent search and cycle check -/

mutual

/-- `find_collection_parent` (collection.c): return the collection that has
the node `scChild` as one of its directly nested collections, searching
recursively from `sc_parent`.  Returns `none` when `scChild` does not occur
strictly below `sc_parent`. -/
def find_collection_parent (scChild : Nat) : SceneCollection → Option SceneCollection
  | .node i n ty g obs fo cs =>
    find_collection_parent_in scChild (.node i n ty g obs fo cs) cs

/-- Loop body of `find_collection_parent`: scan the child list of
`sc_parent`; on a direct hit return `sc_parent`, otherwise descend. -/
def find_collection_parent_in (scChild : Nat) (sc_parent : SceneCollection) :
    List SceneCollection → Option SceneCollection
  | [] => none
  | nested :: rest =>
    if nested.scid = scChild then some sc_parent
    else
      match find_collection_parent scChild nested with
      | some found => some found
      | none => find_collection_parent_in scChild sc_parent rest

end

/-- `is_collection_in_tree` (collection.c): whether the node `sc_reference`
is nested (strictly) below `sc_parent`. -/
def is_collection_in_tree (sc_reference : Nat) (sc_parent : SceneCollection) : Bool :=
  (find_collection_parent sc_reference sc_parent).isSome

mutual

/-- `collection_remlink` (collection.c): unlink the collection with
identifier `sc_gone` from whichever child list below `sc_parent` holds it
(first depth-first occurrence); the flag reports whether it was found. -/
def collection_remlink (sc_gone : Nat) : SceneCollection → Bool × SceneCollection
  | .node i n ty g obs fo cs =>
    let r := collection_remlink_in sc_gone cs
    (r.1, .node i n ty g obs fo r.2)

/-- Loop body of `collection_remlink` over a child list. -/
def collection_remlink_in (sc_gone : Nat) : List SceneCollection → Bool × List SceneCollection
  | [] => (false, [])
  | c :: rest =>
    if c.scid = sc_gone then (true, rest)
    else
      let rc := collection_remlink sc_gone c
      if rc.1 then (true, rc.2 :: rest)
      else
        let rr := collection_remlink_in sc_gone rest
        (rr.1, c :: rr.2)

end

mutual

/-- `collection_free` (collection.c): release a collection's items
recursively.  Returns the cleared node (all three lists freed; name, type and
attached group are untouched) together with the reference-count effects
(`id_us_min` on every object and filter object, recursively, when
`do_id_user` is set). -/
def collection_free (do_id_user : Bool) : SceneCollection → SceneCollection × List Effect
  | .node i n ty g obs fo cs =>
    let sub := collection_free_forest do_id_user cs
    (.node i n ty g [] [] [],
      (if do_id_user then obs.map Effect.idUsMin ++ fo.map Effect.idUsMin else []) ++ sub)

/-- `collection_free` over the child list. -/
def collection_free_forest (do_id_user : Bool) : List SceneCollection → List Effect
  | [] => []
  | c :: rest => (collection_free do_id_user c).2 ++ collection_free_forest do_id_user rest

end

/-! ### Removing a collection -/

mutual

/-- `layer_collection_remove` descending into the nested list of one layer
collection (the `lb != &sl->layer_collections` case: at most one instance of
a scene collection can occur in a nested sibling list, so the scan returns
after the first removal there). -/
def layer_collection_remove_nested (sc : Nat) : List LayerCollection → List LayerCollection × List Effect
  | [] => ([], [])
  | lc :: rest =>
    if lc.scene_collection = sc then (rest, [Effect.layerCollectionFree sc])
    else
      let rc := layer_collection_remove_under sc lc
      let rr := layer_collection_remove_nested sc rest
      (rc.1 :: rr.1, rc.2 ++ rr.2)

/-- Recurse `layer_collection_remove` into the children of one (unmatched)
layer collection. -/
def layer_collection_remove_under (sc : Nat) : LayerCollection → LayerCollection × List Effect
  | .node r fl fe cls =>
    let r' := layer_collection_remove_nested sc cls
    (.node r fl fe r'.1, r'.2)

end

/-- `layer_collection_remove` (collection.c) on the top-level
`sl->layer_collections` list: every instance referencing `sc` is removed
(top-level siblings may repeat a scene collection, so scanning continues
after a removal there). -/
def layer_collection_remove (sc : Nat) : List LayerCollection → List LayerCollection × List Effect
  | [] => ([], [])
  | lc :: rest =>
    if lc.scene_collection = sc then
      let rr := layer_collection_remove sc rest
      (rr.1, Effect.layerCollectionFree sc :: rr.2)
    else
      let rc := layer_collection_remove_under sc lc
      let rr := layer_collection_remove sc rest
      (rc.1 :: rr.1, rc.2 ++ rr.2)

/-- `BKE_collection_remove` (collection.c): refuse to remove the master
collection; otherwise unlink `sc` from the collection tree, free its subtree
(releasing object references), and clear every layer collection referencing
it in every render layer, resetting each layer's active collection.
The node is dereferenced with `lookupNode` (it is the `sc` pointer argument);
the `none` case models the asserted-unreachable "not in its claimed tree"
branch. -/
def BKE_collection_remove (scene : Scene) (sc : Nat) : Bool × Scene × List Effect :=
  let sc_master := scene.collection
  if sc = sc_master.scid then (false, scene, [])
  else
    let unlinked := (collection_remlink sc sc_master).2
    match lookupNode sc sc_master with
    | none => (true, { scene with collection := unlinked }, [])
    | some scNode =>
      let fr := collection_free true scNode
      let layers := scene.render_layers.map
        (fun sl => layer_collection_remove sc sl.layer_collections)
      (true,
        { collection := unlinked,
          render_layers := layers.map (fun p => { layer_collections := p.1, active_collection := 0 }) },
        fr.2 ++ (layers.map Prod.snd).flatten)

/-! ### Moving collections (outliner drag and drop) -/

mutual

/-- Previous sibling (the `prev` pointer) of the node with identifier `i`,
located at its first depth-first occurrence below the given root. -/
def prev_sibling (i : Nat) : SceneCollection → Option Nat
  | .node _ _ _ _ _ _ cs => prev_sibling_in i none cs

/-- Scan of one child list for `prev_sibling`, carrying the previous
element's identifier. -/
def prev_sibling_in (i : Nat) (before : Option Nat) : List SceneCollection → Option Nat
  | [] => none
  | c :: rest =>
    if c.scid = i then before
    else
      match prev_sibling i c with
      | some r => some r
      | none => prev_sibling_in i (some c.scid) rest

end

mutual

/-- Next sibling (the `next` pointer) of the node with identifier `i`,
located at its first depth-first occurrence below the given root. -/
def next_sibling (i : Nat) : SceneCollection → Option Nat
  | .node _ _ _ _ _ _ cs => next_sibling_in i cs

/-- Scan of one child list for `next_sibling`. -/
def next_sibling_in (i : Nat) : List SceneCollection → Option Nat
  | [] => none
  | c :: rest =>
    if c.scid = i then (rest.head?.map SceneCollection.scid)
    else
      match next_sibling i c with
      | some r => some r
      | none => next_sibling_in i rest

end

mutual

/-- `BLI_insertlinkbefore` on the child list holding the node `dst` (first
depth-first occurrence): insert `nw` directly before it.  The flag reports
whether `dst` was found. -/
def insert_before (dst : Nat) (nw : SceneCollection) : SceneCollection → Bool × SceneCollection
  | .node i n ty g obs fo cs =>
    let r := insert_before_in dst nw cs
    (r.1, .node i n ty g obs fo r.2)

/-- `insert_before` over one child list. -/
def insert_before_in (dst : Nat) (nw : SceneCollection) :
    List SceneCollection → Bool × List SceneCollection
  | [] => (false, [])
  | c :: rest =>
    if c.scid = dst then (true, nw :: c :: rest)
    else
      let rc := insert_before dst nw c
      if rc.1 then (true, rc.2 :: rest)
      else
        let rr := insert_before_in dst nw rest
        (rr.1, c :: rr.2)

end

mutual

/-- `BLI_insertlinkafter` on the child list holding the node `dst` (first
depth-first occurrence): insert `nw` directly after it. -/
def insert_after (dst : Nat) (nw : SceneCollection) : SceneCollection → Bool × SceneCollection
  | .node i n ty g obs fo cs =>
    let r := insert_after_in dst nw cs
    (r.1, .node i n ty g obs fo r.2)

/-- `insert_after` over one child list. -/
def insert_after_in (dst : Nat) (nw : SceneCollection) :
    List SceneCollection → Bool × List SceneCollection
  | [] => (false, [])
  | c :: rest =>
    if c.scid = dst then (true, c :: nw :: rest)
    else
      let rc := insert_after dst nw c
      if rc.1 then (true, rc.2 :: rest)
      else
        let rr := insert_after_in dst nw rest
        (rr.1, c :: rr.2)

end

/-- `BLI_addtail(&sc_dst->scene_collections, sc_src)`: append `nw` as last
child of the node `dst` (first depth-first occurrence, the root included). -/
def addtail_child (dst : Nat) (nw : SceneCollection) (t : SceneCollection) : SceneCollection :=
  (updateNode dst
    (fun sc => .node sc.scid sc.cname sc.ctype sc.cgroup sc.objects sc.filter_objects
      (sc.children ++ [nw])) t).2

/-- `BKE_collection_move_above` (collection.c): move `sc_src` directly above
`sc_dst` in its parent's child list.  Rejected when either operand is the
master, when `sc_dst->prev == sc_src` already, or when `sc_dst` is nested
below `sc_src`.  The `none` fallthroughs model the asserted-unreachable
missing-parent branches. -/
def BKE_collection_move_above (scene : Scene) (sc_dst sc_src : Nat) : Bool × Scene × List Effect :=
  let sc_master := scene.collection
  if sc_master.scid = sc_src ∨ sc_master.scid = sc_dst then (false, scene, [])
  else if prev_sibling sc_dst sc_master = some sc_src then (false, scene, [])
  else
    match lookupNode sc_src sc_master with
    | none => (false, scene, [])
    | some srcNode =>
      if is_collection_in_tree sc_dst srcNode then (false, scene, [])
      else
        match find_collection_parent sc_src sc_master, find_collection_parent sc_dst sc_master with
        | some sc_src_parent, some sc_dst_parent =>
          let t1 := (collection_remlink sc_src sc_master).2
          let t2 := (insert_before sc_dst srcNode t1).2
          (true, { scene with collection := t2 },
            [Effect.layerCollectionResync sc_src_parent.scid,
             Effect.layerCollectionResync sc_dst_parent.scid])
        | _, _ => (false, scene, [])

/-- `BKE_collection_move_below` (collection.c): move `sc_src` directly below
`sc_dst` in its parent's child list; guards as in `BKE_collection_move_above`
with `sc_dst->next` in place of `sc_dst->prev`. -/
def BKE_collection_move_below (scene : Scene) (sc_dst sc_src : Nat) : Bool × Scene × List Effect :=
  let sc_master := scene.collection
  if sc_master.scid = sc_src ∨ sc_master.scid = sc_dst then (false, scene, [])
  else if next_sibling sc_dst sc_master = some sc_src then (false, scene, [])
  else
    match lookupNode sc_src sc_master with
    | none => (false, scene, [])
    | some srcNode =>
      if is_collection_in_tree sc_dst srcNode then (false, scene, [])
      else
        match find_collection_parent sc_src sc_master, find_collection_parent sc_dst sc_master with
        | some sc_src_parent, some sc_dst_parent =>
          let t1 := (collection_remlink sc_src sc_master).2
          let t2 := (insert_after sc_dst srcNode t1).2
          (true, { scene with collection := t2 },
            [Effect.layerCollectionResync sc_src_parent.scid,
             Effect.layerCollectionResync sc_dst_parent.scid])
        | _, _ => (false, scene, [])

/-- `BKE_collection_move_into` (collection.c): move `sc_src` to be the last
child of `sc_dst`.  Rejected when `sc_src` is the master, when `sc_dst` is
nested below `sc_src`, or when `sc_src` is already the last child of
`sc_dst`.  (Note: the destination being the master is not rejected, and
`sc_dst == sc_src` passes every guard.) -/
def BKE_collection_move_into (scene : Scene) (sc_dst sc_src : Nat) : Bool × Scene × List Effect :=
  let sc_master := scene.collection
  if sc_src = sc_master.scid then (false, scene, [])
  else
    match lookupNode sc_src sc_master with
    | none => (false, scene, [])
    | some srcNode =>
      if is_collection_in_tree sc_dst srcNode then (false, scene, [])
      else
        match find_collection_parent sc_src sc_master with
        | none => (false, scene, [])
        | some sc_src_parent =>
          if ((lookupNode sc_dst sc_master).bind
              (fun d => d.children.getLast?.map SceneCollection.scid)) = some sc_src then
            (false, scene, [])
          else
            let t1 := (collection_remlink sc_src sc_master).2
            let t2 := addtail_child sc_dst srcNode t1
            (true, { scene with collection := t2 },
              [Effect.layerCollectionResync sc_src_parent.scid,
               Effect.layerCollectionResync sc_dst])

/-! ### Object membership engine -/

/-- `collection_object_add` (collection.c): append the object to the
collection's object list, take a user reference when the owner is a Scene
(group owners hold the reference through the group), and notify the layer
subsystem of the new link. -/
def collection_object_add (id : IDKind) (sc : SceneCollection) (ob : Nat) :
    SceneCollection × List Effect :=
  (.node sc.scid sc.cname sc.ctype sc.cgroup (sc.objects ++ [ob]) sc.filter_objects sc.children,
    (if id = IDKind.scene then [Effect.idUsPlus ob] else []) ++ [Effect.layerSyncObjectLink sc.scid ob])

/-- `BKE_collection_object_add` (collection.c): do not add the same object
twice (`BLI_findptr` on the object list); otherwise delegate to
`collection_object_add`. -/
def BKE_collection_object_add (id : IDKind) (sc : SceneCollection) (ob : Nat) :
    Bool × SceneCollection × List Effect :=
  if ob ∈ sc.objects then (false, sc, [])
  else
    let r := collection_object_add id sc ob
    (true, r.1, r.2)

/-- `BKE_collection_object_remove` (collection.c): return `false` when the
object is not a direct member; otherwise detach the (first) link, notify the
layer subsystem of the unlink, and either fully release the object
(`free_us`) or drop one user reference for Scene owners. -/
def BKE_collection_object_remove (id : IDKind) (sc : SceneCollection) (ob : Nat)
    (free_us : Bool) : Bool × SceneCollection × List Effect :=
  if ob ∈ sc.objects then
    (true,
      .node sc.scid sc.cname sc.ctype sc.cgroup (sc.objects.erase ob) sc.filter_objects sc.children,
      Effect.layerSyncObjectUnlink sc.scid ob ::
        (if free_us then [Effect.libblockFreeUs ob]
         else if id = IDKind.scene then [Effect.idUsMin ob] else []))
  else (false, sc, [])

/-- `BKE_collection_object_move` (collection.c): add the object to the
destination collection, then remove it from the source collection (two
distinct nodes; the owner is the scene).  Returns the two updated nodes and
the combined effect trace. -/
def BKE_collection_object_move (sc_dst sc_src : SceneCollection) (ob : Nat) :
    (SceneCollection × SceneCollection) × List Effect :=
  let a := BKE_collection_object_add IDKind.scene sc_dst ob
  let r := BKE_collection_object_remove IDKind.scene sc_src ob false
  ((a.2.1, r.2.1), a.2.2 ++ r.2.2)

/-- Net reference-count change of object `ob` recorded in an effect trace:
number of `id_us_plus` calls minus number of `id_us_min` calls. -/
def netRefDelta (es : List Effect) (ob : Nat) : Int :=
  (es.countP (fun e => e = Effect.idUsPlus ob) : Int) -
    (es.countP (fun e => e = Effect.idUsMin ob) : Int)

/-! ### Name uniqueness guard and rename -/

mutual

/-- `collection_unique_name_check` (collection.c): scan the given collection
list recursively; report a clash when some collection other than `lookup_sc`
(the collection being renamed) carries the name. -/
def collection_unique_name_check (lookup_sc : Nat) (nm : String) :
    List SceneCollection → Bool
  | [] => false
  | sc :: rest =>
    if sc.scid ≠ lookup_sc ∧ sc.cname = nm then true
    else
      if collection_unique_name_check_one lookup_sc nm sc then true
      else collection_unique_name_check lookup_sc nm rest

/-- Descend `collection_unique_name_check` into one collection's children. -/
def collection_unique_name_check_one (lookup_sc : Nat) (nm : String) :
    SceneCollection → Bool
  | .node _ _ _ _ _ _ cs => collection_unique_name_check lookup_sc nm cs

end

/-- Modelled from the spec: suffix search of `BLI_uniquename_cb`
(BLI_string_utils, not under `src/`): try `base.1`, `base.2`, ... until the
existence predicate no longer reports a clash (§6: "generate-unique-name").
The fuel bounds the search; it is never exhausted on the inputs considered
here. -/
def uniquename_suffix (check : String → Bool) (base : String) : Nat → Nat → String
  | 0, _ => base
  | fuel + 1, k =>
    let cand := base ++ "." ++ toString k
    if check cand = false then cand
    else uniquename_suffix check base fuel (k + 1)

/-- Modelled from the spec: `BLI_uniquename_cb` (BLI_string_utils, not under
`src/`), per the §6 collaborator contract "generate-unique-name(candidate,
separator, existingNamesPredicate)": an empty candidate falls back to the
default name, a candidate with no clash is kept unchanged, and otherwise a
numeric suffix is appended.  (String truncation to the fixed C buffer size is
not modelled.) -/
def BLI_uniquename_cb (check : String → Bool) (defname : String) (nm : String) : String :=
  let base := if nm = "" then defname else nm
  if check base = false then base
  else uniquename_suffix check base 1024 1

/-- `collection_rename` (collection.c): copy the candidate into the node's
name, then make it unique with `BLI_uniquename_cb`, where the existence
predicate is `collection_unique_name_check` over the master's child list with
the renamed collection excluded. -/
def collection_rename (sc_master : SceneCollection) (sc : Nat) (nm : String) :
    SceneCollection :=
  let newName := BLI_uniquename_cb
    (fun s => collection_unique_name_check sc s sc_master.children) "Collection" nm
  (updateNode sc
    (fun n => .node n.scid newName n.ctype n.cgroup n.objects n.filter_objects n.children)
    sc_master).2

/-- `BKE_collection_rename` (collection.c): rename under a Scene owner. -/
def BKE_collection_rename (scene : Scene) (sc : Nat) (nm : String) : Scene :=
  { scene with collection := collection_rename scene.collection sc nm }

/-! ### Scene collections iterator -/

/-- Placeholder node used only for out-of-range array reads (never produced
on the reachable states of the iterator). -/
def defaultSC : SceneCollection := .node 0 "" 0 none [] [] []

mutual

/-- `scene_collection_callback` (collection.c): fold a callback over the
collection tree in depth-first pre-order (the node first, then its children
left to right). -/
def scene_collection_callback {A : Type} (cb : SceneCollection → A → A) :
    SceneCollection → A → A
  | .node i n ty g obs fo cs, acc =>
    scene_collection_callback_forest cb cs (cb (.node i n ty g obs fo cs) acc)

/-- `scene_collection_callback` continued over a child list. -/
def scene_collection_callback_forest {A : Type} (cb : SceneCollection → A → A) :
    List SceneCollection → A → A
  | [], acc => acc
  | c :: rest, acc =>
    scene_collection_callback_forest cb rest (scene_collection_callback cb c acc)

end

/-- `scene_collections_count` (collection.c): the counting callback. -/
def scene_collections_count (sc_master : SceneCollection) : Nat :=
  scene_collection_callback (fun _ tot => tot + 1) sc_master 0

/-- `scene_collections_build_array` (collection.c): the filling callback
(writing through an advancing cursor, i.e. appending). -/
def scene_collections_build_array (sc_master : SceneCollection) : List SceneCollection :=
  scene_collection_callback (fun sc arr => arr ++ [sc]) sc_master []

/-- `SceneCollectionsIteratorData` plus the `BLI_Iterator` fields used by the
scene-collections iterator: the eagerly built snapshot array, its length
`tot`, the cursor `cur`, the exposed `current` element, and the `valid`
flag. -/
structure SceneCollectionsIteratorData where
  array : List SceneCollection
  tot : Nat
  cur : Nat
  current : SceneCollection
  valid : Bool

/-- `BKE_scene_collections_iterator_begin` (collection.c), taking the owner's
master collection (`master_collection_from_id`): snapshot the tree with the
two-pass count-then-fill build, position the cursor on element 0. -/
def BKE_scene_collections_iterator_begin (sc_master : SceneCollection) :
    SceneCollectionsIteratorData :=
  let tot := scene_collections_count sc_master
  let arr := scene_collections_build_array sc_master
  { array := arr, tot := tot, cur := 0, current := arr.getD 0 defaultSC, valid := true }

/-- `BKE_scene_collections_iterator_next` (collection.c): advance the cursor;
past the end, only the valid flag is dropped (`current` keeps its last
value). -/
def BKE_scene_collections_iterator_next (it : SceneCollectionsIteratorData) :
    SceneCollectionsIteratorData :=
  let cur' := it.cur + 1
  if cur' < it.tot then { it with cur := cur', current := it.array.getD cur' defaultSC }
  else { it with cur := cur', valid := false }

/-- The `ITER_BEGIN` / `ITER_END` consumption pattern: collect `current`
while `valid`, advancing with the iterator's next.  The fuel only bounds the
loop (the C loop needs no bound because `cur` grows past `tot`). -/
def scene_collections_drain : Nat → SceneCollectionsIteratorData → List SceneCollection
  | 0, _ => []
  | fuel + 1, it =>
    if it.valid then it.current :: scene_collections_drain fuel (BKE_scene_collections_iterator_next it)
    else []

/-! ### Scene objects iterator -/

/-- `object_base_unique` (collection.c): first object in the link chain not
yet in the visited set; that object is inserted into the set
(`BLI_gset_ensure_p_ex`).  Returns the found object with the remaining chain
after it, and the updated set. -/
def object_base_unique (gs : List Nat) : List Nat → Option (Nat × List Nat) × List Nat
  | [] => (none, gs)
  | ob :: rest =>
    if ob ∈ gs then object_base_unique gs rest
    else (some (ob, rest), ob :: gs)

/-- `SceneObjectsIteratorData` plus the `BLI_Iterator` fields used by the
scene-objects iterator: the visited set, the cursor into the current object
chain (`link_next`, the empty list modelling the NULL pointer the data is
calloc'd to), the wrapped scene-collections iterator, the exposed `current`
object and the `valid` flag. -/
structure SceneObjectsIteratorData where
  visited : List Nat
  link_next : List Nat
  sc_iter : SceneCollectionsIteratorData
  current : Option Nat
  valid : Bool

/-- The do-while loop of `BKE_scene_objects_iterator_next`: scan the current
collection's objects for a not-yet-visited one; if none, advance the
collection iterator and repeat while it is valid.  Note the body reads
`sc_iter.current` even when the iterator has just been exhausted (the stale
last element), exactly as the C loop does.  The fuel bounds the loop; the C
loop terminates because the cursor only grows. -/
def scene_objects_next_loop : Nat → List Nat → SceneCollectionsIteratorData →
    Option (Nat × List Nat × List Nat) × SceneCollectionsIteratorData
  | 0, _, it => (none, it)
  | fuel + 1, vis, it =>
    let sc := it.current
    match object_base_unique vis sc.objects with
    | (some (ob, rest), vis') => (some (ob, rest, vis'), it)
    | (none, _) =>
      let it' := BKE_scene_collections_iterator_next it
      if it'.valid then scene_objects_next_loop fuel vis it'
      else (none, it')

/-- `BKE_scene_objects_iterator_next` (collection.c): continue the current
object chain from `link_next` (skipping visited objects), and when it is
exhausted — or NULL, as `begin` leaves it — move to the next collections. -/
def BKE_scene_objects_iterator_next (fuel : Nat) (s : SceneObjectsIteratorData) :
    SceneObjectsIteratorData :=
  match (if s.link_next ≠ [] then object_base_unique s.visited s.link_next
         else (none, s.visited)) with
  | (some (ob, rest), vis') =>
    { s with visited := vis', link_next := rest, current := some ob }
  | (none, _) =>
    let r := scene_objects_next_loop fuel s.visited (BKE_scene_collections_iterator_next s.sc_iter)
    match r.1 with
    | some (ob, rest, vis') =>
      { s with visited := vis', link_next := rest, current := some ob, sc_iter := r.2 }
    | none =>
      { s with sc_iter := r.2, valid := if r.2.valid then s.valid else false }

/-- `BKE_scene_objects_iterator_begin` (collection.c): wrap the
scene-collections iterator; expose the first object of the first collection
directly (without touching the visited set or `link_next`, which stays
NULL), and only call `next` when that first collection has no objects. -/
def BKE_scene_objects_iterator_begin (fuel : Nat) (sc_master : SceneCollection) :
    SceneObjectsIteratorData :=
  let ci := BKE_scene_collections_iterator_begin sc_master
  let sc := ci.current
  let s0 : SceneObjectsIteratorData :=
    { visited := [], link_next := [], sc_iter := ci, current := sc.objects.head?, valid := true }
  match s0.current with
  | none => BKE_scene_objects_iterator_next fuel s0
  | some _ => s0

/-- The `ITER_BEGIN` / `ITER_END` consumption pattern for the objects
iterator: collect `current` while `valid`. -/
def scene_objects_drain (inner : Nat) : Nat → SceneObjectsIteratorData → List Nat
  | 0, _ => []
  | fuel + 1, s =>
    if s.valid then s.current.toList ++ scene_objects_drain inner fuel (BKE_scene_objects_iterator_next inner s)
    else []

/-! ### Group conversion engine -/

mutual

/-- `layer_collection_sync` (collection.c): copy `flag` and `flag_evaluated`
from the source layer collection into the destination, recursing pairwise
over the nested lists (stopping at the shorter one); override sync is a
pending task in the source and performs nothing. -/
def layer_collection_sync (lc_src : LayerCollection) : LayerCollection → LayerCollection
  | .node r _ _ cls =>
    .node r lc_src.flag lc_src.flag_evaluated
      (layer_collection_sync_forest lc_src.layer_collections cls)

/-- Pairwise recursion of `layer_collection_sync` over the nested lists. -/
def layer_collection_sync_forest :
    List LayerCollection → List LayerCollection → List LayerCollection
  | _, [] => []
  | [], d :: ds => d :: ds
  | s :: ss, d :: ds => layer_collection_sync s d :: layer_collection_sync_forest ss ds

end

mutual

/-- `collection_group_convert_layer_collections` (collection.c): in a layer
collection list, every layer collection referencing `sc` is handed to the
external `BKE_layer_collection_convert` (recorded as an effect; the in-place
conversion itself is delegated to the layer subsystem, which is outside this
file); other nodes are descended into. -/
def collection_group_convert_layer_collections (sc : Nat) :
    List LayerCollection → List Effect
  | [] => []
  | lc :: rest =>
    (if lc.scene_collection = sc then [Effect.layerCollectionConvert sc COLLECTION_TYPE_GROUP]
     else collection_group_convert_one sc lc) ++
      collection_group_convert_layer_collections sc rest

/-- Descend `collection_group_convert_layer_collections` into one layer
collection's children. -/
def collection_group_convert_one (sc : Nat) : LayerCollection → List Effect
  | .node _ _ _ cls => collection_group_convert_layer_collections sc cls

end

/-- `BKE_collection_group_set` (collection.c): attach the group to a
collection that already has group type. -/
def BKE_collection_group_set (sc : SceneCollection) (g : Nat) : SceneCollection :=
  .node sc.scid sc.cname sc.ctype (some g) sc.objects sc.filter_objects sc.children

mutual

/-- `collections_set_type`: the `FOREACH_SCENE_COLLECTION` retyping loop of
`BKE_collection_group_create`, setting every collection's type (the group's
master included, since the iterator starts at the master). -/
def collections_set_type (ty : Nat) : SceneCollection → SceneCollection
  | .node i n _ g obs fo cs => .node i n ty g obs fo (collections_set_type_forest ty cs)

/-- `collections_set_type` over a child list. -/
def collections_set_type_forest (ty : Nat) : List SceneCollection → List SceneCollection
  | [] => []
  | c :: rest => collections_set_type ty c :: collections_set_type_forest ty rest

end

mutual

/-- The `id_us_plus` trace of `BKE_collection_copy_data` (collection.c): one
reference per copied object and filter object, recursively, unless
`LIB_ID_CREATE_NO_USER_REFCOUNT` is passed. -/
def collection_copy_refcount (no_user_refcount : Bool) : SceneCollection → List Effect
  | .node _ _ _ _ obs fo cs =>
    (if no_user_refcount then []
     else obs.map Effect.idUsPlus ++ fo.map Effect.idUsPlus) ++
      collection_copy_refcount_forest no_user_refcount cs

/-- `collection_copy_refcount` over a child list. -/
def collection_copy_refcount_forest (no_user_refcount : Bool) :
    List SceneCollection → List Effect
  | [] => []
  | c :: rest =>
    collection_copy_refcount no_user_refcount c ++
      collection_copy_refcount_forest no_user_refcount rest

end

/-- `BKE_collection_copy_data` (collection.c): duplicate the source's object
list, filter-object list and child subtrees into the destination node (which
keeps its own identifier, name, type and group).  The C code allocates fresh
list links and child structs; in the pure model the deep copy of a subtree is
the subtree value itself. -/
def BKE_collection_copy_data (no_user_refcount : Bool) (sc_dst sc_src : SceneCollection) :
    SceneCollection × List Effect :=
  (.node sc_dst.scid sc_dst.cname sc_dst.ctype sc_dst.cgroup
      sc_src.objects sc_src.filter_objects sc_src.children,
    collection_copy_refcount no_user_refcount sc_src)

/-- `BKE_collection_add` (collection.c), acting on an owner's master
collection: default the name, make it unique (the new node, with fresh
identifier `fresh`, is not yet in the tree, so the rename excludes nothing),
append the new collection to the requested parent (the master when `none`),
and notify the layer subsystem.  Returns the updated master, the new node's
identifier and the effect trace. -/
def BKE_collection_add (sc_master : SceneCollection) (sc_parent : Option Nat)
    (ty : Nat) (nm : Option String) (fresh : Nat) :
    SceneCollection × Nat × List Effect :=
  let nm0 := nm.getD "New Collection"
  let newName := BLI_uniquename_cb
    (fun s => collection_unique_name_check fresh s sc_master.children) "Collection" nm0
  let sc : SceneCollection := .node fresh newName ty none [] [] []
  let pid := sc_parent.getD sc_master.scid
  (addtail_child pid sc sc_master, fresh, [Effect.layerSyncNewSceneCollection pid fresh])

/-- Modelled from the spec: `BKE_group_add` (BKE_group.h, not under `src/`).
Per §3, a Group holds its own master collection and one scene layer used as
the canonical template; the fresh group id and master-collection id come
from the allocation counter.  The default layer links the master collection
(the state `collection_group_cleanup` subsequently clears). -/
def BKE_group_add (fresh : Nat) (nm : String) : BGroup :=
  { gid := fresh, gname := nm,
    collection := .node (fresh + 1) "Master Collection" COLLECTION_TYPE_NONE none [] [] [],
    layer_collections := [.node (fresh + 1) 0 0 []] }

/-- `collection_group_cleanup` (collection.c): unlink every layer collection
of the group's scene layer (popping from the tail, via the external
`BKE_collection_unlink`, recorded as free effects in pop order) and free
everything below the group's master collection. -/
def collection_group_cleanup (g : BGroup) : BGroup × List Effect :=
  let unlinkEffects := g.layer_collections.reverse.map
    (fun lc => Effect.layerCollectionFree lc.scene_collection)
  let fr := collection_free false g.collection
  ({ g with collection := fr.1, layer_collections := [] }, unlinkEffects ++ fr.2)

mutual

/-- Modelled from the spec: the layer-collection tree `BKE_collection_link`
(BKE_layer.h, not under `src/`) creates for a collection — §6
"create-layer-link": a layer collection referencing the collection, mirroring
its subtree, with clear flags. -/
def layer_collection_mirror : SceneCollection → LayerCollection
  | .node i _ _ _ _ _ cs => .node i 0 0 (layer_collection_mirror_forest cs)

/-- `layer_collection_mirror` over a child list. -/
def layer_collection_mirror_forest : List SceneCollection → List LayerCollection
  | [] => []
  | c :: rest => layer_collection_mirror c :: layer_collection_mirror_forest rest

end

/-- The `Main` database plus allocation state threaded through
`BKE_collection_group_create`: the scene, the registered groups, and a fresh
identifier counter standing for the allocator. -/
structure GState where
  scene : Scene
  groups : List BGroup
  nextId : Nat

/-- `BKE_collection_group_create` (collection.c): convert the collection
referenced by `lc_src` into a group.  Rejected (returning no group and
leaving the state untouched) when the source is already of group type, when
it is the master, or when some top-level layer collection of some render
layer references a collection nested strictly below the source.  On success:
build a new group holding a deep copy of the source subtree (retyped to
group-internal), link it into the group's own layer, convert every layer
collection referencing the source in every render layer, retype the source
itself to group type, attach the group and free the source's data.  Returns
the new group's id.  The source collection pointer is modelled by
`lookupNode`; its `none` branch is unreachable for live layer collections. -/
def BKE_collection_group_create (st : GState) (lc_src : LayerCollection) :
    Option Nat × GState × List Effect :=
  let scene := st.scene
  let sc_master := scene.collection
  match lookupNode lc_src.scene_collection sc_master with
  | none => (none, st, [])
  | some sc_src =>
    if sc_src.ctype = COLLECTION_TYPE_GROUP then (none, st, [])
    else if sc_src.scid = sc_master.scid then (none, st, [])
    else if scene.render_layers.any
        (fun sl => sl.layer_collections.any
          (fun lc_child => is_collection_in_tree lc_child.scene_collection sc_src)) then
      (none, st, [])
    else
      let group0 := BKE_group_add st.nextId sc_src.cname
      let cleanup := collection_group_cleanup group0
      let added := BKE_collection_add cleanup.1.collection none
        COLLECTION_TYPE_GROUP_INTERNAL (some sc_src.cname) (st.nextId + 2)
      let sc_dst0 : SceneCollection :=
        .node (st.nextId + 2)
          (BLI_uniquename_cb
            (fun s => collection_unique_name_check (st.nextId + 2) s cleanup.1.collection.children)
            "Collection" sc_src.cname)
          COLLECTION_TYPE_GROUP_INTERNAL none [] [] []
      let copied := BKE_collection_copy_data true sc_dst0 sc_src
      let gmaster1 := (updateNode (st.nextId + 2) (fun _ => copied.1) added.1).2
      let gmaster2 := collections_set_type COLLECTION_TYPE_GROUP_INTERNAL gmaster1
      let lc_dst := layer_collection_mirror copied.1
      let lc_dst' := layer_collection_sync lc_src lc_dst
      let group1 : BGroup :=
        { cleanup.1 with collection := gmaster2, layer_collections := [lc_dst'] }
      let convertEffects := (scene.render_layers.map
        (fun sl => collection_group_convert_layer_collections sc_src.scid sl.layer_collections)).flatten
      let finalFree := collection_free true
        (BKE_collection_group_set
          (.node sc_src.scid sc_src.cname COLLECTION_TYPE_GROUP sc_src.cgroup
            sc_src.objects sc_src.filter_objects sc_src.children) group0.gid)
      let newMaster := (updateNode sc_src.scid (fun _ => finalFree.1) sc_master).2
      (some group0.gid,
        { scene := { scene with collection := newMaster },
          groups := st.groups ++ [group1],
          nextId := st.nextId + 3 },
        cleanup.2 ++ added.2.2 ++ copied.2 ++ convertEffects ++ finalFree.2)

/-! ### Concrete example data used by the example-based theorems -/

/-- A scene whose master collection A (id 0) has one child B (id 1), which
has one child C (id 2). -/
def sceneMoveA : Scene :=
  { collection := .node 0 "Master Collection" 0 none [] []
      [.node 1 "B" 0 none [] [] [.node 2 "C" 0 none [] [] []]],
    render_layers := [] }

/-- A scene whose master (id 0) has a single child collection C (id 1). -/
def sceneSelf : Scene :=
  { collection := .node 0 "Master Collection" 0 none [] [] [.node 1 "C" 0 none [] [] []],
    render_layers := [] }

/-- A master collection (id 5) holding objects 10 and 20 and no child
collections. -/
def masterTwoObjects : SceneCollection := .node 5 "Master Collection" 0 none [10, 20] [] []

/-- A destination collection that already holds object 7. -/
def dstHasSeven : SceneCollection := .node 7 "D" 0 none [7] [] []

/-- A source collection holding object 7. -/
def srcHasSeven : SceneCollection := .node 8 "S" 0 none [7] [] []

/-- Master (id 0) with one regular child C (id 1) holding object 5. -/
def masterWithC : SceneCollection :=
  .node 0 "Master Collection" 0 none [] [] [.node 1 "C" 0 none [5] [] []]

/-- A render layer whose single top-level layer collection references C
(id 1) directly. -/
def layerRefC : SceneLayer := { layer_collections := [.node 1 3 0 []], active_collection := 0 }

/-- The `Main`/scene state for the group-conversion examples. -/
def stateRefC : GState :=
  { scene := { collection := masterWithC, render_layers := [layerRefC] },
    groups := [], nextId := 100 }

/-- The layer collection referencing C handed to `BKE_collection_group_create`. -/
def lcRefC : LayerCollection := .node 1 3 0 []

/-- A master (id 0) with children named "B" (id 1) and "C" (id 2), for the
rename examples. -/
def masterRename : SceneCollection :=
  .node 0 "Master Collection" 0 none [] []
    [.node 1 "B" 0 none [] [] [], .node 2 "C" 0 none [] [] []]

/-- The ordering property claimed for the depth-first snapshot: wherever a
node occurs in the produced sequence, each of its children occurs later. -/
def parents_before_children (l : List SceneCollection) : Prop :=
  ∀ l1 x l2, l = l1 ++ x :: l2 → ∀ c ∈ x.children, c ∈ l2

/-! ## Helper lemmas -/

/-- Mutual structural induction over a collection tree and a collection
forest, in constructor form (derived from the recursion pattern of
`countNodes`). -/
theorem scTree_mutual_induction (motive_1 : SceneCollection → Prop)
    (motive_2 : List SceneCollection → Prop)
    (h1 : ∀ (j : Nat) (n : String) (ty : Nat) (g : Option Nat) (obs fo : List Nat)
      (cs : List SceneCollection), motive_2 cs → motive_1 (.node j n ty g obs fo cs))
    (h2 : motive_2 [])
    (h3 : ∀ (c : SceneCollection) (cs : List SceneCollection),
      motive_1 c → motive_2 cs → motive_2 (c :: cs)) :
    (∀ t, motive_1 t) ∧ (∀ cs, motive_2 cs) :=
  ⟨countNodes.induct motive_1 motive_2 h1 h2 h3,
   countForest.induct motive_1 motive_2 h1 h2 h3⟩



/-- The found flag of `updateNode` / `updateForest` agrees with whether the
lookup succeeds. -/
theorem updateNode_found_iff_lookup (i : Nat) (f : SceneCollection → SceneCollection) :
    (∀ t, (updateNode i f t).1 = (lookupNode i t).isSome) ∧
    (∀ cs, (updateForest i f cs).1 = (lookupForest i cs).isSome) := by
  apply scTree_mutual_induction
  · intro j n ty g obs fo cs ih
    by_cases hj : j = i <;> simp [updateNode, lookupNode, hj, ih]
  · simp [updateForest, lookupForest]
  · intro c cs ih1 ih2
    cases hc : lookupNode i c with
    | some v =>
      have ht : (updateNode i f c).1 = true := by rw [ih1, hc]; rfl
      simp [updateForest, lookupForest, hc, ht]
    | none =>
      have hfalse : (updateNode i f c).1 = false := by rw [ih1, hc]; rfl
      simp [updateForest, lookupForest, hc, hfalse, ih2]

/-- Dereferencing after `updateNode` at the same identifier yields the
transformed node, provided the transformation keeps its identifier. -/
theorem lookup_updateNode (i : Nat) (f : SceneCollection → SceneCollection) :
    (∀ t, ∀ sc, lookupNode i t = some sc → (f sc).scid = i →
      lookupNode i (updateNode i f t).2 = some (f sc)) ∧
    (∀ cs, ∀ sc, lookupForest i cs = some sc → (f sc).scid = i →
      lookupForest i (updateForest i f cs).2 = some (f sc)) := by
  apply scTree_mutual_induction
  · intro j n ty g obs fo cs ih sc hl hs
    by_cases hj : j = i
    · subst hj
      rw [lookupNode, if_pos rfl] at hl
      have hsc : sc = SceneCollection.node j n ty g obs fo cs := by
        exact (Option.some.injEq _ _ ▸ hl).symm
      subst hsc
      rw [updateNode, if_pos rfl]
      cases hv : f (SceneCollection.node j n ty g obs fo cs) with
      | node j' n' ty' g' obs' fo' cs' =>
        rw [hv] at hs
        simp only [SceneCollection.scid] at hs
        simp [lookupNode, hs]
    · simp only [lookupNode, if_neg hj] at hl
      simp [updateNode, lookupNode, hj, ih sc hl hs]
  · intro sc hl
    simp [lookupForest] at hl
  · intro c cs ih1 ih2 sc hl hs
    cases hc : lookupNode i c with
    | some v =>
      have hv : v = sc := by
        rw [lookupForest, hc] at hl
        simpa using hl
      subst hv
      have ht : (updateNode i f c).1 = true := by
        rw [(updateNode_found_iff_lookup i f).1, hc]; rfl
      simp [updateForest, ht, lookupForest, ih1 v hc hs]
    | none =>
      rw [lookupForest, hc] at hl
      have hfalse : (updateNode i f c).1 = false := by
        rw [(updateNode_found_iff_lookup i f).1, hc]; rfl
      simp [updateForest, hfalse, lookupForest, hc, ih2 sc hl hs]

/-- When the transformation fixes the node it is applied to, `updateNode` is
the identity. -/
theorem updateNode_id (i : Nat) (f : SceneCollection → SceneCollection) :
    (∀ t, (∀ sc, lookupNode i t = some sc → f sc = sc) → (updateNode i f t).2 = t) ∧
    (∀ cs, (∀ sc, lookupForest i cs = some sc → f sc = sc) → (updateForest i f cs).2 = cs) := by
  apply scTree_mutual_induction
  · intro j n ty g obs fo cs ih h
    by_cases hj : j = i
    · subst hj
      have happ := h (SceneCollection.node j n ty g obs fo cs) (by rw [lookupNode, if_pos rfl])
      rw [updateNode, if_pos rfl, happ]
    · have := ih (fun sc hl => h sc (by simp only [lookupNode, if_neg hj]; exact hl))
      simp [updateNode, hj, this]
  · intro _
    simp [updateForest]
  · intro c cs ih1 ih2 h
    cases hc : lookupNode i c with
    | some v =>
      have ht : (updateNode i f c).1 = true := by
        rw [(updateNode_found_iff_lookup i f).1, hc]; rfl
      have h1 := ih1 (fun sc hl => h sc (by simp [lookupForest, hl]))
      simp [updateForest, ht, h1]
    | none =>
      have hfalse : (updateNode i f c).1 = false := by
        rw [(updateNode_found_iff_lookup i f).1, hc]; rfl
      have h2 := ih2 (fun sc hl => h sc (by simp [lookupForest, hc, hl]))
      simp [updateForest, hfalse, h2]

/-- A successful lookup returns a node carrying the requested identifier. -/
theorem lookupNode_scid (i : Nat) :
    (∀ t, ∀ sc, lookupNode i t = some sc → sc.scid = i) ∧
    (∀ cs, ∀ sc, lookupForest i cs = some sc → sc.scid = i) := by
  apply scTree_mutual_induction
  · intro j n ty g obs fo cs ih sc hl
    by_cases hj : j = i
    · simp only [lookupNode, if_pos hj] at hl
      have hsc : sc = SceneCollection.node j n ty g obs fo cs :=
        (Option.some.injEq _ _ ▸ hl).symm
      subst hsc
      simpa [SceneCollection.scid] using hj
    · simp only [lookupNode, if_neg hj] at hl
      exact ih sc hl
  · intro sc hl
    simp [lookupForest] at hl
  · intro c cs ih1 ih2 sc hl
    cases hc : lookupNode i c with
    | some v =>
      rw [lookupForest, hc] at hl
      simp at hl
      exact hl ▸ ih1 v hc
    | none =>
      rw [lookupForest, hc] at hl
      exact ih2 sc hl

/-- Characterization of the uniqueness scan: it reports a clash exactly when
some collection other than the excluded one, anywhere in the forest, carries
the name. -/
theorem unique_name_check_iff (lookup : Nat) (nm : String) :
    (∀ t, collection_unique_name_check_one lookup nm t = true ↔
      ∃ sc ∈ dfsForest t.children, sc.scid ≠ lookup ∧ sc.cname = nm) ∧
    (∀ cs, collection_unique_name_check lookup nm cs = true ↔
      ∃ sc ∈ dfsForest cs, sc.scid ≠ lookup ∧ sc.cname = nm) := by
  apply scTree_mutual_induction
  · intro j n ty g obs fo cs ih
    simpa [collection_unique_name_check_one, SceneCollection.children] using ih
  · simp [collection_unique_name_check, dfsForest]
  · intro c cs ih1 ih2
    cases c with
    | node j n ty g obs fo ccs =>
      constructor
      · intro h
        rw [collection_unique_name_check] at h
        by_cases hhit : (SceneCollection.node j n ty g obs fo ccs).scid ≠ lookup ∧
            (SceneCollection.node j n ty g obs fo ccs).cname = nm
        · exact ⟨SceneCollection.node j n ty g obs fo ccs,
            by simp [dfsForest, dfsList], hhit⟩
        · rw [if_neg hhit] at h
          by_cases hone : collection_unique_name_check_one lookup nm
              (SceneCollection.node j n ty g obs fo ccs) = true
          · obtain ⟨sc, hmem, hsc⟩ := ih1.mp hone
            exact ⟨sc, by
              simp only [SceneCollection.children] at hmem
              simp [dfsForest, dfsList]
              right; left; exact hmem, hsc⟩
          · rw [if_neg hone] at h
            obtain ⟨sc, hmem, hsc⟩ := ih2.mp h
            exact ⟨sc, by simp [dfsForest]; right; exact hmem, hsc⟩
      · rintro ⟨sc, hmem, hne, hnm⟩
        simp only [dfsForest, dfsList, List.mem_append, List.mem_cons] at hmem
        rw [collection_unique_name_check]
        rcases hmem with (hself | hbelow) | hrest
        · subst hself
          rw [if_pos ⟨hne, hnm⟩]
        · by_cases hhit : (SceneCollection.node j n ty g obs fo ccs).scid ≠ lookup ∧
              (SceneCollection.node j n ty g obs fo ccs).cname = nm
          · rw [if_pos hhit]
          · rw [if_neg hhit]
            have : collection_unique_name_check_one lookup nm
                (SceneCollection.node j n ty g obs fo ccs) = true :=
              ih1.mpr ⟨sc, by simpa [SceneCollection.children] using hbelow, hne, hnm⟩
            rw [if_pos this]
        · by_cases hhit : (SceneCollection.node j n ty g obs fo ccs).scid ≠ lookup ∧
              (SceneCollection.node j n ty g obs fo ccs).cname = nm
          · rw [if_pos hhit]
          · rw [if_neg hhit]
            by_cases hone : collection_unique_name_check_one lookup nm
                (SceneCollection.node j n ty g obs fo ccs) = true
            · rw [if_pos hone]
            · rw [if_neg hone]
              exact ih2.mpr ⟨sc, hrest, hne, hnm⟩

/-- The depth-first snapshot enumerates exactly the total node count. -/
theorem dfsList_length :
    (∀ t, (dfsList t).length = countNodes t) ∧
    (∀ cs, (dfsForest cs).length = countForest cs) := by
  apply scTree_mutual_induction
  · intro j n ty g obs fo cs ih
    simp [dfsList, countNodes, ih]
    omega
  · simp [dfsForest, countForest]
  · intro c cs ih1 ih2
    simp [dfsForest, countForest, ih1, ih2]

/-- The counting pass of the two-pass snapshot computes the node count. -/
theorem scene_collection_callback_count :
    (∀ t, ∀ acc : Nat, scene_collection_callback (fun _ tot => tot + 1) t acc =
      acc + countNodes t) ∧
    (∀ cs, ∀ acc : Nat, scene_collection_callback_forest (fun _ tot => tot + 1) cs acc =
      acc + countForest cs) := by
  apply scTree_mutual_induction
  · intro j n ty g obs fo cs ih acc
    simp [scene_collection_callback, countNodes, ih]
    omega
  · intro acc
    simp [scene_collection_callback_forest, countForest]
  · intro c cs ih1 ih2 acc
    simp [scene_collection_callback_forest, countForest, ih1, ih2]
    omega

/-- The filling pass of the two-pass snapshot appends the depth-first
pre-order node list. -/
theorem scene_collection_callback_fill :
    (∀ t, ∀ acc : List SceneCollection,
      scene_collection_callback (fun sc arr => arr ++ [sc]) t acc = acc ++ dfsList t) ∧
    (∀ cs, ∀ acc : List SceneCollection,
      scene_collection_callback_forest (fun sc arr => arr ++ [sc]) cs acc = acc ++ dfsForest cs) := by
  apply scTree_mutual_induction
  · intro j n ty g obs fo cs ih acc
    simp [scene_collection_callback, dfsList, ih]
  · intro acc
    simp [scene_collection_callback_forest, dfsForest]
  · intro c cs ih1 ih2 acc
    simp [scene_collection_callback_forest, dfsForest, ih1, ih2]

/-- Every member of a forest occurs in its depth-first node list. -/
theorem mem_dfsList_self (c : SceneCollection) : c ∈ dfsList c := by
  cases c with
  | node j n ty g obs fo cs => simp [dfsList]

/-- Every element of a collection list occurs in that forest's depth-first
node list. -/
theorem mem_dfsForest_of_mem {c : SceneCollection} :
    ∀ {cs : List SceneCollection}, c ∈ cs → c ∈ dfsForest cs := by
  intro cs hc
  induction cs with
  | nil => cases hc
  | cons d rest ih =>
    rcases List.mem_cons.mp hc with h | h
    · subst h
      simp [dfsForest, List.mem_append, mem_dfsList_self]
    · simp [dfsForest, List.mem_append, ih h]

/-- In the depth-first pre-order node list, every occurrence of a node is
followed by all of its children. -/
theorem dfs_parents_before_children :
    (∀ t, parents_before_children (dfsList t)) ∧
    (∀ cs, parents_before_children (dfsForest cs)) := by
  apply scTree_mutual_induction
  · intro j n ty g obs fo cs ih l1 x l2 hsplit c hc
    rw [dfsList] at hsplit
    cases l1 with
    | nil =>
      simp only [List.nil_append, List.cons.injEq] at hsplit
      obtain ⟨hx, hl2⟩ := hsplit
      subst hx
      simp only [SceneCollection.children] at hc
      rw [← hl2]
      exact mem_dfsForest_of_mem hc
    | cons a l1' =>
      simp only [List.cons_append, List.cons.injEq] at hsplit
      exact ih l1' x l2 hsplit.2 c hc
  · intro l1 x l2 hsplit c hc
    rw [dfsForest] at hsplit
    exact absurd hsplit.symm (List.append_ne_nil_of_right_ne_nil l1 (by simp))
  · intro d rest ih1 ih2 l1 x l2 hsplit c hc
    rw [dfsForest] at hsplit
    rcases List.append_eq_append_iff.mp hsplit with ⟨a', ha1, ha2⟩ | ⟨c', hc1, hc2⟩
    · exact ih2 a' x l2 ha2 c hc
    · cases c' with
      | nil =>
        simp only [List.nil_append] at hc2
        exact ih2 [] x l2 hc2.symm c hc
      | cons x' c'' =>
        simp only [List.cons_append, List.cons.injEq] at hc2
        obtain ⟨hx, hl2⟩ := hc2
        subst hx
        have hmem := ih1 l1 x c'' hc1 c hc
        rw [hl2]
        exact List.mem_append.mpr (Or.inl hmem)

/-- Draining the collections iterator from cursor position `c` over its
snapshot yields the remaining suffix of the snapshot, given enough fuel. -/
theorem scene_collections_drain_drop :
    ∀ (fuel : Nat) (arr : List SceneCollection) (c : Nat),
      c < arr.length → arr.length ≤ c + fuel →
      scene_collections_drain fuel
        { array := arr, tot := arr.length, cur := c,
          current := arr.getD c defaultSC, valid := true } = arr.drop c := by
  intro fuel
  induction fuel with
  | zero => intro arr c hlt hle; omega
  | succ fuel ih =>
    intro arr c hlt hle
    rw [scene_collections_drain]
    simp only [if_pos rfl]
    by_cases hnext : c + 1 < arr.length
    · have hrec := ih arr (c + 1) hnext (by omega)
      rw [BKE_scene_collections_iterator_next]
      simp only [hnext, if_pos]
      simp only at hrec ⊢
      rw [hrec, List.getD_eq_getElem arr defaultSC hlt, ← List.drop_eq_getElem_cons hlt]
    · have hstop : arr.drop (c + 1) = [] := List.drop_eq_nil_of_le (by omega)
      rw [BKE_scene_collections_iterator_next]
      simp only [hnext, if_neg (by omega : ¬ c + 1 < arr.length)]
      have hdrain : ∀ s : SceneCollectionsIteratorData, s.valid = false →
          scene_collections_drain fuel s = [] := by
        intro s hs
        cases fuel with
        | zero => rw [scene_collections_drain]
        | succ m => rw [scene_collections_drain]; simp [hs]
      rw [hdrain _ rfl]
      rw [List.getD_eq_getElem arr defaultSC hlt]
      rw [List.drop_eq_getElem_cons hlt, hstop]
      simp

/-! ## Claim theorems -/

/-- C1 (counterexample): the claim says every one of the five operations
refuses the master collection in either operand position, but
`BKE_collection_move_into` accepts the master as destination: moving C into
the master of the scene A{B{C}} returns `true` (and re-parents C). -/
theorem C1_counterexample : (BKE_collection_move_into sceneMoveA 0 2).1 = true := rfl

/-- C1 (amended): `BKE_collection_remove`, `BKE_collection_move_above` and
`BKE_collection_move_below` return `false` and leave the state untouched
whenever the master collection is the target or the source operand, and
`BKE_collection_move_into` and `BKE_collection_group_create` do so whenever
the master is the source; the master as `move_into` destination is not
rejected. -/
theorem C1_master_guards (scene : Scene) (st : GState) (sc_dst sc_src : Nat)
    (flag fe : Nat) (cls : List LayerCollection) :
    BKE_collection_remove scene scene.collection.scid = (false, scene, []) ∧
    BKE_collection_move_above scene sc_dst scene.collection.scid = (false, scene, []) ∧
    BKE_collection_move_above scene scene.collection.scid sc_src = (false, scene, []) ∧
    BKE_collection_move_below scene sc_dst scene.collection.scid = (false, scene, []) ∧
    BKE_collection_move_below scene scene.collection.scid sc_src = (false, scene, []) ∧
    BKE_collection_move_into scene sc_dst scene.collection.scid = (false, scene, []) ∧
    BKE_collection_group_create st
      (.node st.scene.collection.scid flag fe cls) = (none, st, []) := by
  refine ⟨?_, ?_, ?_, ?_, ?_, ?_, ?_⟩
  · rw [BKE_collection_remove, if_pos rfl]
  · rw [BKE_collection_move_above, if_pos (Or.inl rfl)]
  · rw [BKE_collection_move_above, if_pos (Or.inr rfl)]
  · rw [BKE_collection_move_below, if_pos (Or.inl rfl)]
  · rw [BKE_collection_move_below, if_pos (Or.inr rfl)]
  · rw [BKE_collection_move_into, if_pos rfl]
  · cases hmc : st.scene.collection with
    | node j n ty g obs fo cs =>
      rw [BKE_collection_group_create]
      simp only [hmc, LayerCollection.scene_collection, SceneCollection.scid,
        lookupNode, if_pos rfl]
      by_cases hty : ty = COLLECTION_TYPE_GROUP
      · simp [hty]
      · simp [hty, SceneCollection.ctype, SceneCollection.scid]

/-- C2: in the scene whose master A has child B which has child C, the call
`BKE_collection_move_into(A, C)` returns `true`, after which C is a direct
child of A (last in A's child list) and no longer below B, and a layer
resynchronization is triggered for B (the old parent) and then for A (the
destination). -/
theorem C2_move_into_master : BKE_collection_move_into sceneMoveA 0 2 =
    (true,
      { collection := .node 0 "Master Collection" 0 none [] []
          [.node 1 "B" 0 none [] [] [], .node 2 "C" 0 none [] [] []],
        render_layers := [] },
      [Effect.layerCollectionResync 1, Effect.layerCollectionResync 0]) := rfl

/-- C3 (evaluation at the failing input): with master M{C}, the call
`BKE_collection_move_into(C, C)` — destination equal to the moved subtree —
passes every guard, returns `true`, and detaches C from the scene tree (the
C code appends C to its own child list, a cycle, leaving the scene without
C), instead of returning `false` and leaving the tree unchanged as the
cycle-guard claim requires. -/
theorem C3_move_into_self : BKE_collection_move_into sceneSelf 1 1 =
    (true,
      { collection := .node 0 "Master Collection" 0 none [] [] [], render_layers := [] },
      [Effect.layerCollectionResync 0, Effect.layerCollectionResync 1]) := rfl

/-- C5 (evaluation at the failing input): over a scene whose master holds
objects 10 and 20 and nothing else, the objects iterator yields 10 twice
(and only then 20): `begin` exposes the first object without recording it in
the visited set and leaves the link cursor NULL, so the first `next` call
rescans the collection and produces 10 again, while a second collection in
the scene would make `next` skip the master's remaining objects instead. -/
theorem C5_objects_iterator_duplicate :
    scene_objects_drain 10 10 (BKE_scene_objects_iterator_begin 10 masterTwoObjects) =
      [10, 10, 20] := rfl

/-- C4 (counterexample): the claim says `BKE_collection_group_create`
returns null whenever the source collection is directly referenced by a
top-level layer collection; in the state where the only render layer's only
top-level layer collection references the source C directly, the conversion
nevertheless succeeds and returns the new group (the code only rejects
references to collections nested strictly below the source). -/
theorem C4_counterexample : (BKE_collection_group_create stateRefC lcRefC).1 = some 100 := rfl

/-- C6 (counterexample): the claim asserts a net-zero reference-count change
for every move; moving object 7 from S to D when 7 is already a direct
member of D nets one decrement (the add is refused, the remove still
decrements), so the claim fails as stated. -/
theorem C6_counterexample :
    netRefDelta (BKE_collection_object_move dstHasSeven srcHasSeven 7).2 7 = -1 := by decide

/-- C6 (amended): for distinct destination and source collections, when the
object is not yet a direct member of the destination and is a direct member
of the source exactly once, `BKE_collection_object_move` leaves the object a
direct member of the destination, no longer a member of the source, and the
reference count is unchanged net (one increment from the add, one decrement
from the remove). -/
theorem C6_object_move (sc_dst sc_src : SceneCollection) (ob : Nat)
    (hdst : ob ∉ sc_dst.objects) (hsrc : sc_src.objects.count ob = 1) :
    ob ∈ ((BKE_collection_object_move sc_dst sc_src ob).1.1).objects ∧
    ob ∉ ((BKE_collection_object_move sc_dst sc_src ob).1.2).objects ∧
    netRefDelta (BKE_collection_object_move sc_dst sc_src ob).2 ob = 0 := by
  have hmem : ob ∈ sc_src.objects := by
    have hpos : 0 < sc_src.objects.count ob := by omega
    exact List.count_pos_iff.mp hpos
  have hgone : ob ∉ sc_src.objects.erase ob := by
    rw [← List.count_eq_zero, List.count_erase_self, hsrc]
  cases sc_dst with
  | node di dn dty dg dobs dfo dcs =>
    cases sc_src with
    | node si sn sty sg sobs sfo scs =>
      simp only [SceneCollection.objects] at hdst hmem hgone
      refine ⟨?_, ?_, ?_⟩
      · simp [BKE_collection_object_move, BKE_collection_object_add, hdst,
          collection_object_add, BKE_collection_object_remove, hmem,
          SceneCollection.objects]
      · simp [BKE_collection_object_move, BKE_collection_object_add, hdst,
          collection_object_add, BKE_collection_object_remove, hmem,
          SceneCollection.objects, hgone]
      · simp [BKE_collection_object_move, BKE_collection_object_add, hdst,
          collection_object_add, BKE_collection_object_remove, hmem,
          SceneCollection.objects, SceneCollection.scid, SceneCollection.cname,
          SceneCollection.ctype, SceneCollection.cgroup, SceneCollection.filter_objects,
          SceneCollection.children, netRefDelta, List.countP_append, List.countP_cons]

/-- C6 (witness). -/
theorem C6_object_move_witness :
    7 ∉ (SceneCollection.node 1 "D" 0 none [] [] []).objects ∧
    ((SceneCollection.node 2 "S" 0 none [7] [] []).objects.count 7 = 1) ∧
    netRefDelta (BKE_collection_object_move (.node 1 "D" 0 none [] [] [])
      (.node 2 "S" 0 none [7] [] []) 7).2 7 = 0 :=
  ⟨by decide, by decide,
    (C6_object_move (.node 1 "D" 0 none [] [] []) (.node 2 "S" 0 none [7] [] []) 7
      (by decide) (by decide)).2.2⟩

/-- C7: `BKE_collection_object_add` is idempotent: starting from a
collection of which the object is not yet a direct member, the first call
succeeds; the second call with the same collection and object returns
`false`, leaves the direct-membership count at exactly 1, changes nothing,
and performs no reference-count increment and no layer notification. -/
theorem C7_object_add_idempotent (id : IDKind) (sc : SceneCollection) (ob : Nat)
    (h : ob ∉ sc.objects) :
    (BKE_collection_object_add id sc ob).1 = true ∧
    (BKE_collection_object_add id (BKE_collection_object_add id sc ob).2.1 ob).1 = false ∧
    (BKE_collection_object_add id (BKE_collection_object_add id sc ob).2.1 ob).2.1 =
      (BKE_collection_object_add id sc ob).2.1 ∧
    ((BKE_collection_object_add id sc ob).2.1).objects.count ob = 1 ∧
    (BKE_collection_object_add id (BKE_collection_object_add id sc ob).2.1 ob).2.2 = [] := by
  cases sc with
  | node i n ty g obs fo cs =>
    simp only [SceneCollection.objects] at h
    have hcnt : obs.count ob = 0 := List.count_eq_zero.mpr h
    have hmem : ob ∈ (obs ++ [ob]) := by simp
    refine ⟨?_, ?_, ?_, ?_, ?_⟩ <;>
      simp [BKE_collection_object_add, collection_object_add, h,
        SceneCollection.objects, SceneCollection.scid, SceneCollection.cname,
        SceneCollection.ctype, SceneCollection.cgroup, SceneCollection.filter_objects,
        SceneCollection.children, hmem, List.count_append, hcnt]

/-- C7 (witness). -/
theorem C7_object_add_idempotent_witness :
    3 ∉ (SceneCollection.node 1 "D" 0 none [] [] []).objects ∧
    (BKE_collection_object_add IDKind.scene
      (BKE_collection_object_add IDKind.scene (.node 1 "D" 0 none [] [] []) 3).2.1 3).1 = false :=
  ⟨by decide,
    (C7_object_add_idempotent IDKind.scene (.node 1 "D" 0 none [] [] []) 3 (by decide)).2.1⟩

/-- C8: removing an object that is not a direct member of the collection
returns `false` and modifies nothing: no list change, no reference-count
change, no layer notification — for either owner kind and either value of
the `free_us` flag. -/
theorem C8_object_remove_nonmember (id : IDKind) (sc : SceneCollection) (ob : Nat)
    (free_us : Bool) (h : ob ∉ sc.objects) :
    BKE_collection_object_remove id sc ob free_us = (false, sc, []) := by
  simp [BKE_collection_object_remove, h]

/-- C8 (witness). -/
theorem C8_object_remove_nonmember_witness :
    9 ∉ (SceneCollection.node 1 "D" 0 none [4] [] []).objects ∧
    BKE_collection_object_remove IDKind.scene (.node 1 "D" 0 none [4] [] []) 9 false =
      (false, .node 1 "D" 0 none [4] [] [], []) :=
  ⟨by decide,
    C8_object_remove_nonmember IDKind.scene (.node 1 "D" 0 none [4] [] []) 9 false (by decide)⟩

/-- C9: over any owner's collection tree, the scene-collections iterator
yields exactly the depth-first pre-order snapshot: as many nodes as the tree
holds (the master included), in depth-first order, each node before any of
its children. -/
theorem C9_collections_iterator (t : SceneCollection) :
    scene_collections_drain (countNodes t + 1) (BKE_scene_collections_iterator_begin t) =
      dfsList t ∧
    (dfsList t).length = countNodes t ∧
    parents_before_children (dfsList t) := by
  have hcount : scene_collections_count t = countNodes t := by
    simpa [scene_collections_count] using scene_collection_callback_count.1 t 0
  have hfill : scene_collections_build_array t = dfsList t := by
    simpa [scene_collections_build_array] using scene_collection_callback_fill.1 t []
  have hlen : (dfsList t).length = countNodes t := dfsList_length.1 t
  have hne : 0 < (dfsList t).length := by
    cases t with | node j n ty g obs fo cs => simp [dfsList]
  have hb : BKE_scene_collections_iterator_begin t =
      { array := dfsList t, tot := (dfsList t).length, cur := 0,
        current := (dfsList t).getD 0 defaultSC, valid := true } := by
    rw [BKE_scene_collections_iterator_begin]
    simp [hcount, hfill, hlen]
  refine ⟨?_, hlen, dfs_parents_before_children.1 t⟩
  rw [hb]
  have hdrop := scene_collections_drain_drop (countNodes t + 1) (dfsList t) 0 hne
    (by omega)
  simpa using hdrop

/-- C9 has no hypotheses; the following example nevertheless records a fully
concrete run of the iterator on the three-node scene. -/
theorem C9_collections_iterator_example :
    (scene_collections_drain (countNodes sceneMoveA.collection + 1)
      (BKE_scene_collections_iterator_begin sceneMoveA.collection)).map SceneCollection.scid =
      [0, 1, 2] := rfl

/-- C10: renaming a collection to a candidate name carried by no *other*
collection in the owner's namespace — the collection's own current name
included — stores the candidate unchanged, with no numeric suffix, because
`collection_unique_name_check` excludes the collection being renamed; in
particular renaming a collection to its current name leaves the whole tree
unchanged.  (The empty candidate is excluded: it falls back to the default
name.) -/
theorem C10_rename_excludes_self (sc_master : SceneCollection) (i : Nat)
    (sc : SceneCollection) (nm : String)
    (hlk : lookupNode i sc_master = some sc) (hnm : nm ≠ "")
    (hfree : ∀ sc' ∈ dfsForest sc_master.children, sc'.scid ≠ i → sc'.cname ≠ nm) :
    lookupNode i (collection_rename sc_master i nm) =
      some (.node sc.scid nm sc.ctype sc.cgroup sc.objects sc.filter_objects sc.children) ∧
    (sc.cname = nm → collection_rename sc_master i nm = sc_master) := by
  have hcheck : collection_unique_name_check i nm sc_master.children = false := by
    cases hcb : collection_unique_name_check i nm sc_master.children with
    | false => rfl
    | true =>
      obtain ⟨sc', hmem, hne, hnm'⟩ := ((unique_name_check_iff i nm).2 sc_master.children).mp hcb
      exact absurd hnm' (hfree sc' hmem hne)
  have hname : BLI_uniquename_cb
      (fun s => collection_unique_name_check i s sc_master.children) "Collection" nm = nm := by
    rw [BLI_uniquename_cb]
    simp [hnm, hcheck]
  have hrw : collection_rename sc_master i nm =
      (updateNode i (fun n => .node n.scid nm n.ctype n.cgroup n.objects n.filter_objects
        n.children) sc_master).2 := by
    rw [collection_rename, hname]
  have hscid : sc.scid = i := (lookupNode_scid i).1 sc_master sc hlk
  constructor
  · rw [hrw]
    exact (lookup_updateNode i _).1 sc_master sc hlk
      (by simpa [SceneCollection.scid] using hscid)
  · intro hcur
    rw [hrw]
    apply (updateNode_id i _).1
    intro sc' hl'
    have hsc' : sc' = sc := by
      rw [hlk] at hl'
      exact (Option.some.injEq _ _ ▸ hl').symm
    subst hsc'
    cases sc' with
    | node j n' ty g obs fo cs =>
      simp only [SceneCollection.cname] at hcur
      simp [SceneCollection.scid, SceneCollection.cname, SceneCollection.ctype,
        SceneCollection.cgroup, SceneCollection.objects, SceneCollection.filter_objects,
        SceneCollection.children, hcur]

/-- C10 (witness). -/
theorem C10_rename_excludes_self_witness :
    lookupNode 1 masterRename = some (.node 1 "B" 0 none [] [] []) ∧
    ("B" : String) ≠ "" ∧
    (∀ sc' ∈ dfsForest masterRename.children, sc'.scid ≠ 1 → sc'.cname ≠ "B") ∧
    collection_rename masterRename 1 "B" = masterRename :=
  ⟨rfl, by decide, by decide,
    (C10_rename_excludes_self masterRename 1 (.node 1 "B" 0 none [] [] []) "B"
      rfl (by decide) (by decide)).2 rfl⟩

/-- C4 (amended): `BKE_collection_group_create` returns null and mutates
nothing whenever some top-level layer collection of some render layer
references a collection nested *strictly below* the source (a direct
top-level reference to the source itself is not rejected — see the
counterexample); and on success the original collection's type becomes
group, its attached group is the returned one, and its object and child data
are freed. -/
theorem C4_group_create (st : GState) (lc_src : LayerCollection) (sc_src : SceneCollection)
    (h : lookupNode lc_src.scene_collection st.scene.collection = some sc_src) :
    ((st.scene.render_layers.any
        (fun sl => sl.layer_collections.any
          (fun lc_child => is_collection_in_tree lc_child.scene_collection sc_src))) = true →
      BKE_collection_group_create st lc_src = (none, st, [])) ∧
    (∀ g st' es, BKE_collection_group_create st lc_src = (some g, st', es) →
      lookupNode lc_src.scene_collection st'.scene.collection =
        some (.node sc_src.scid sc_src.cname COLLECTION_TYPE_GROUP (some g) [] [] [])) := by
  have hscid : sc_src.scid = lc_src.scene_collection := (lookupNode_scid _).1 _ _ h
  cases sc_src with
  | node si sn sty sg sobs sfo scs =>
    simp only [SceneCollection.scid] at hscid
    simp only [SceneCollection.scid, SceneCollection.cname]
    constructor
    · intro hany
      rw [BKE_collection_group_create, h]
      by_cases h1 : sty = COLLECTION_TYPE_GROUP
      · simp [h1, SceneCollection.ctype]
      · by_cases h2 : si = st.scene.collection.scid
        · cases hmc : st.scene.collection with
          | node mj mn mty mg mobs mfo mcs =>
            rw [hmc] at h2
            simp only [SceneCollection.scid] at h2
            simp [h1, h2, SceneCollection.ctype, SceneCollection.scid]
        · cases hmc : st.scene.collection with
          | node mj mn mty mg mobs mfo mcs =>
            rw [hmc] at h2
            simp only [SceneCollection.scid] at h2
            simp [h1, h2, hany, SceneCollection.ctype, SceneCollection.scid]
    · intro g st' es heq
      rw [BKE_collection_group_create, h] at heq
      by_cases h1 : sty = COLLECTION_TYPE_GROUP
      · simp [h1, SceneCollection.ctype] at heq
      · cases hmc : st.scene.collection with
        | node mj mn mty mg mobs mfo mcs =>
          rw [hmc] at heq
          by_cases h2 : si = mj
          · simp [h1, h2, SceneCollection.ctype, SceneCollection.scid] at heq
          · by_cases h3 : (st.scene.render_layers.any
                (fun sl => sl.layer_collections.any
                  (fun lc_child => is_collection_in_tree lc_child.scene_collection
                    (.node si sn sty sg sobs sfo scs)))) = true
            · simp [h1, h2, h3, SceneCollection.ctype, SceneCollection.scid] at heq
            · simp only [SceneCollection.ctype, SceneCollection.scid, h1, h2, h3,
                if_false, if_neg, Bool.false_eq_true, BKE_group_add,
                BKE_collection_group_set, collection_free,
                SceneCollection.cname, SceneCollection.cgroup, SceneCollection.objects,
                SceneCollection.filter_objects, SceneCollection.children] at heq
              simp only [Prod.mk.injEq] at heq
              obtain ⟨hg, hst, hes⟩ := heq
              rw [hmc] at h
              have hl2 : lookupNode si (SceneCollection.node mj mn mty mg mobs mfo mcs) =
                  some (.node si sn sty sg sobs sfo scs) := by
                rw [← hscid] at h
                exact h
              have hlook := (lookup_updateNode si
                (fun _ => SceneCollection.node si sn COLLECTION_TYPE_GROUP
                  (some st.nextId) [] [] [])).1 (.node mj mn mty mg mobs mfo mcs)
                (.node si sn sty sg sobs sfo scs) hl2 (by simp [SceneCollection.scid])
              rw [← hst, ← hscid, ← hg]
              exact hlook

/-- C4 (witness). -/
theorem C4_group_create_witness :
    lookupNode 1 (BKE_collection_group_create stateRefC lcRefC).2.1.scene.collection =
      some (.node 1 "C" COLLECTION_TYPE_GROUP (some 100) [] [] []) :=
  (C4_group_create stateRefC lcRefC (.node 1 "C" 0 none [5] [] []) rfl).2 100
    (BKE_collection_group_create stateRefC lcRefC).2.1
    (BKE_collection_group_create stateRefC lcRefC).2.2 rfl
